import Mathlib

/-!
Shallow embedding of the filmtube transcode pipeline.

The definitions below are translated from the Go sources:
- `src/backend/internal/models/film.go` (status enum, rows),
- `src/backend/internal/db/queries.go` (UpdateTranscodeJobStatus, CreateVideoAsset),
- `src/internal/models/user.go` part 2, package r2 (object keys, public URLs),
- `src/worker/cmd/worker/main.go` part 2, package ffmpeg
  (Qualities, GenerateMasterPlaylist),
- `src/worker/internal/jobs/processor.go` (ProcessJob, markFailed),
- `src/backend/internal/api/handlers_films.go` (ConfirmUpload).

External effects (object store, ffmpeg invocations, queue/cache writes and
database writes) are recorded as an ordered trace of events; the outcomes of
the external calls are supplied by an environment of oracles, so every control
path of the Go code is represented.
-/

namespace Filmtube

/-- `FilmStatus` from `models/film.go` (shared by films and transcode jobs). -/
inductive FilmStatus where
  | DRAFT
  | UPLOADED
  | TRANSCODING
  | READY
  | FAILED
deriving DecidableEq, Repr

/-- `ffmpeg.QualityLevel` from the worker ffmpeg package. -/
structure QualityLevel where
  name : String
  width : Nat
  height : Nat
  bitrate : String
  audio : String
deriving DecidableEq, Repr

/-- `ffmpeg.Qualities`: the configured quality tiers, in declared order. -/
def Qualities : List QualityLevel :=
  [ { name := "360p", width := 640, height := 360, bitrate := "800k", audio := "128k" },
    { name := "720p", width := 1280, height := 720, bitrate := "2500k", audio := "192k" } ]

/-! Object-store key layout, from package r2. -/

/-- `r2.OriginalPath`. -/
def OriginalPath : String := "original"

/-- `r2.ThumbnailPath`. -/
def ThumbnailPath : String := "thumb"

/-- `r2.HLSPath`. -/
def HLSPath : String := "hls"

/-- Key used by `DownloadOriginalVideo` / `GeneratePresignedUploadURL`. -/
def originalVideoKey (filmID : String) : String :=
  OriginalPath ++ "/" ++ filmID ++ "/source.mp4"

/-- Key used for the poster thumbnail upload in `ProcessJob`. -/
def thumbnailKey (filmID : String) : String :=
  ThumbnailPath ++ "/" ++ filmID ++ "/poster.jpg"

/-- `r2.UploadHLSFile`: key `hls/{filmID}/{quality}/{filename}`. -/
def hlsFileKey (filmID quality filename : String) : String :=
  HLSPath ++ "/" ++ filmID ++ "/" ++ quality ++ "/" ++ filename

/-- Key of the master playlist uploaded by `ProcessJob`. -/
def masterKey (filmID : String) : String :=
  HLSPath ++ "/" ++ filmID ++ "/master.m3u8"

/-- `r2.GetPublicURL`. -/
def getPublicURL (publicURL key : String) : String :=
  publicURL ++ "/" ++ key

/-- `r2.GetHLSMasterURL`. -/
def getHLSMasterURL (publicURL filmID : String) : String :=
  getPublicURL publicURL (masterKey filmID)

/-- `r2.GetThumbnailURL`. -/
def getThumbnailURL (publicURL filmID : String) : String :=
  getPublicURL publicURL (thumbnailKey filmID)

/-! `ffmpeg.GenerateMasterPlaylist` and helpers, from the worker ffmpeg
package. The Go function builds the `bitrates` and `resolutions` maps inline;
a lookup miss yields the Go zero value (0 and ""). -/

/-- The `bitrates` map literal inside `GenerateMasterPlaylist`. -/
def bitrateOf (q : String) : Nat :=
  if q = "360p" then 800000
  else if q = "720p" then 2500000
  else 0

/-- The `resolutions` map literal inside `GenerateMasterPlaylist`. -/
def resolutionOf (q : String) : String :=
  if q = "360p" then "640x360"
  else if q = "720p" then "1280x720"
  else ""

/-- `ffmpeg.GenerateMasterPlaylist(filmID, qualities) ([]byte, error)`.
The Go body never assigns the error result, so it is always `ok`.
Each tier contributes an `EXT-X-STREAM-INF` line followed by the URI line
built by `fmt.Sprintf("%s/%s/index.m3u8", q, q)`. -/
def generateMasterPlaylist (filmID : String) (qualities : List String) :
    Except String String :=
  let _ := filmID
  Except.ok ("#EXTM3U\n" ++ "#EXT-X-VERSION:3\n" ++
    String.join (qualities.map (fun q =>
      "#EXT-X-STREAM-INF:BANDWIDTH=" ++ toString (bitrateOf q) ++
        ",RESOLUTION=" ++ resolutionOf q ++ "\n" ++
      q ++ "/" ++ q ++ "/index.m3u8\n")))

/-- Value of a Go `([]byte, error)` pair whose error is nil; empty otherwise. -/
def playlistOrEmpty (r : Except String String) : String :=
  match r with
  | Except.ok s => s
  | Except.error _ => ""

/-- Split a character list at every occurrence of `sep`. -/
def splitCharsOn (sep : Char) : List Char → List (List Char)
  | [] => [[]]
  | c :: cs =>
    match splitCharsOn sep cs with
    | [] => if c = sep then [[], []] else [[c]]
    | piece :: pieces =>
      if c = sep then [] :: piece :: pieces
      else (c :: piece) :: pieces

/-- The lines of a text file. -/
def lineList (m : String) : List String :=
  (splitCharsOn '\n' m.toList).map (fun cs => String.mk cs)

/-- The non-comment, non-empty lines of an m3u8 playlist: the rendition URIs
a player resolves against the playlist's own location. -/
def manifestURIs (m : String) : List String :=
  (lineList m).filter (fun l =>
    match l.toList with
    | [] => false
    | c :: _ => c != '#')

/-- The directory portion of an object key (up to and including the last
slash), used to resolve a relative URI against the master playlist's key. -/
def dirOf (key : String) : String :=
  String.join (((splitCharsOn '/' key.toList).dropLast).map
    (fun cs => String.mk cs ++ "/"))

/-- Standard relative-URI resolution against a base object key. -/
def resolveRelative (base rel : String) : String :=
  dirOf base ++ rel

/-! Database rows and the SQL of `queries.go`. -/

/-- A `transcode_jobs` row (the columns touched by the worker). -/
structure JobRow where
  status : FilmStatus
  progress : Nat
  error : String
  startedAt : Option Nat
  completedAt : Option Nat
deriving DecidableEq, Repr

/-- `Queries.UpdateTranscodeJobStatus`: direct embedding of the UPDATE
statement.  `$4` is `status == TRANSCODING`; `$5` is
`status == READY || status == FAILED`; `now` stands for `NOW()`. -/
def updateTranscodeJobStatus (row : JobRow) (status : FilmStatus)
    (progress : Nat) (errorMsg : String) (now : Nat) : JobRow :=
  { status := status
    progress := progress
    error := errorMsg
    startedAt :=
      if status = FilmStatus.TRANSCODING ∧ row.startedAt = none
      then some now else row.startedAt
    completedAt :=
      if status = FilmStatus.READY ∨ status = FilmStatus.FAILED
      then some now else row.completedAt }

/-- A `films` row (the columns touched by the worker).  The URL columns are
nullable TEXT columns, hence `Option`. -/
structure FilmRow where
  status : FilmStatus
  hlsMasterURL : Option String
  thumbnailURL : Option String
deriving DecidableEq, Repr

/-! The observable actions of one `ProcessJob` run, in program order.
Database writes, object-store transfers, ffmpeg invocations and the Redis
advisory cache write each leave one event.  `createVideoAsset` is the event
`Queries.CreateVideoAsset` would leave; the processor never performs it. -/

/-- One observable action of the worker.  `jobUpdate` records a call of
`UpdateTranscodeJobStatus` together with the `id` argument the caller passed
for the `WHERE id = $6` clause — the worker passes the film id at every call
site, although the `transcode_jobs` primary key is a distinct `uuid.New()`
chosen by `ConfirmUpload`. -/
inductive Event where
  | jobUpdate (id : String) (status : FilmStatus) (progress : Nat) (error : String)
  | download (key : String)
  | upload (key : String)
  | ffmpegProbe
  | ffmpegThumbnail
  | ffmpegTranscode (quality : String)
  | filmHLS (masterURL thumbnailURL : String)
  | filmStatus (status : FilmStatus)
  | redisStatus (status : FilmStatus)
  | createVideoAsset (quality : String) (hlsIndexURL : String)
deriving DecidableEq, Repr

/-- Replay a trace onto the `transcode_jobs` row whose primary key is
`jobPK`: each `jobUpdate` event is one execution of
`UpdateTranscodeJobStatus`, whose `WHERE id = $6` clause updates the row only
when the id the caller passed equals the row's primary key — an UPDATE
matching zero rows changes nothing and raises no error. -/
def applyJobEvent (jobPK : String) (now : Nat) (row : JobRow) (e : Event) :
    JobRow :=
  match e with
  | Event.jobUpdate id s p err =>
      if id = jobPK then updateTranscodeJobStatus row s p err now else row
  | _ => row

/-- Fold `applyJobEvent` over a trace. -/
def applyJobEvents (jobPK : String) (row : JobRow) (now : Nat)
    (evs : List Event) : JobRow :=
  evs.foldl (applyJobEvent jobPK now) row

/-- Replay a trace onto a `films` row: `filmHLS` is `UpdateFilmHLS` (sets both
URLs and forces status READY), `filmStatus` is `UpdateFilmStatus`. -/
def applyFilmEvent (f : FilmRow) (e : Event) : FilmRow :=
  match e with
  | Event.filmHLS m t =>
      { status := FilmStatus.READY, hlsMasterURL := some m, thumbnailURL := some t }
  | Event.filmStatus s => { f with status := s }
  | _ => f

/-- Fold `applyFilmEvent` over a trace. -/
def applyFilmEvents (f : FilmRow) (evs : List Event) : FilmRow :=
  evs.foldl applyFilmEvent f

/-- The progress arguments of the `UpdateTranscodeJobStatus` calls of a
trace, in order — the values the worker issues, whether or not the UPDATE
matches a row. -/
def progressUpdates (evs : List Event) : List Nat :=
  evs.filterMap (fun e =>
    match e with
    | Event.jobUpdate _ _ p _ => some p
    | _ => none)

/-- The id arguments of the `UpdateTranscodeJobStatus` calls of a trace, in
order: the values handed to the `WHERE id = $6` clause. -/
def jobUpdateIds (evs : List Event) : List String :=
  evs.filterMap (fun e =>
    match e with
    | Event.jobUpdate id _ _ _ => some id
    | _ => none)

/-- `true` exactly on `createVideoAsset` events. -/
def isCreateVideoAsset : Event → Bool
  | Event.createVideoAsset _ _ => true
  | _ => false

/-! The processor (`processor.go`).  The outcome of every external call is an
oracle of the environment; the processor itself is the Go control flow. -/

/-- Outcomes of the external calls made during one `ProcessJob` run.
`thumbUploadOk` is carried for completeness: the Go code only logs a failed
thumbnail upload, so no observable behaviour depends on it. -/
structure Env where
  updateJobOk : Bool
  downloadOk : Bool
  probeOk : Bool
  thumbOk : Bool
  thumbUploadOk : Bool
  transcodeOk : Nat → Bool
  uploadIndexOk : Nat → Bool
  masterUploadOk : Bool
  updateFilmOk : Bool

/-- The environment in which every external call succeeds. -/
def envAllOk : Env :=
  { updateJobOk := true
    downloadOk := true
    probeOk := true
    thumbOk := true
    thumbUploadOk := true
    transcodeOk := fun _ => true
    uploadIndexOk := fun _ => true
    masterUploadOk := true
    updateFilmOk := true }

/-- The environment in which the source download fails (everything before it
succeeds). -/
def envDownloadFails : Env :=
  { envAllOk with downloadOk := false }

/-- The environment in which only thumbnail generation fails. -/
def envThumbFails : Env :=
  { envAllOk with thumbOk := false }

/-- A seven-tier quality configuration, used to probe the progress formula on
a tier count that does not divide 60. -/
def sevenTiers : List QualityLevel :=
  (List.range 7).map (fun j =>
    { name := "q" ++ toString (j + 1), width := 100 * (j + 1),
      height := 50 * (j + 1), bitrate := "500k", audio := "128k" })

/-- `Processor.markFailed`: issue the FAILED/progress-0 job update (passing
the film id as the `UpdateTranscodeJobStatus` id argument), publish FAILED to
the Redis cache, then force the film row to FAILED. -/
def markFailed (filmID errorMsg : String) : List Event :=
  [ Event.jobUpdate filmID FilmStatus.FAILED 0 errorMsg,
    Event.redisStatus FilmStatus.FAILED,
    Event.filmStatus FilmStatus.FAILED ]

/-- The per-tier loop of `ProcessJob` (lines 84-121 of `processor.go`).
`n` is `len(ffmpeg.Qualities)`, `i` the running index, `completed` the
accumulated `completedQualities`.  Returns the events of the loop, the final
`completedQualities`, and the error, if any, that aborted the loop. -/
def transcodeLoop (env : Env) (filmID : String) (n : Nat) :
    List QualityLevel → Nat → List String →
    List Event × List String × Option String
  | [], _, completed => ([], completed, none)
  | q :: rest, i, completed =>
    if env.transcodeOk i = false then
      (Event.ffmpegTranscode q.name ::
         markFailed filmID ("failed to transcode to " ++ q.name),
       completed, some ("transcoding failed for " ++ q.name))
    else if env.uploadIndexOk i = false then
      (Event.ffmpegTranscode q.name ::
         Event.upload (hlsFileKey filmID q.name "index.m3u8") ::
         markFailed filmID "failed to upload HLS files",
       completed, some "failed to upload HLS files")
    else
      let tierEvents :=
        [ Event.ffmpegTranscode q.name,
          Event.upload (hlsFileKey filmID q.name "index.m3u8"),
          Event.jobUpdate filmID FilmStatus.TRANSCODING
            (20 + (i + 1) * (60 / n)) "" ]
      let r := transcodeLoop env filmID n rest (i + 1) (completed ++ [q.name])
      (tierEvents ++ r.1, r.2.1, r.2.2)

/-- `ProcessJob` after the initial status persist succeeded: download, probe,
progress 20, thumbnail (non-fatal), the tier loop, master playlist, film
finalisation, job READY/100, Redis READY.  Returns the trace and whether the
run returned without error. -/
def processJobBody (env : Env) (qualities : List QualityLevel)
    (filmID publicURL : String) : List Event × Bool :=
  if env.downloadOk = false then
    (Event.download (originalVideoKey filmID) ::
       markFailed filmID "failed to download video", false)
  else if env.probeOk = false then
    (Event.download (originalVideoKey filmID) :: Event.ffmpegProbe ::
       markFailed filmID "failed to get video info", false)
  else
    let thumbEvents :=
      if env.thumbOk = false then [Event.ffmpegThumbnail]
      else [Event.ffmpegThumbnail, Event.upload (thumbnailKey filmID)]
    let r := transcodeLoop env filmID qualities.length qualities 0 []
    let pre := Event.download (originalVideoKey filmID) :: Event.ffmpegProbe ::
      Event.jobUpdate filmID FilmStatus.TRANSCODING 20 "" :: (thumbEvents ++ r.1)
    match r.2.2 with
    | some _ => (pre, false)
    | none =>
      match generateMasterPlaylist filmID r.2.1 with
      | Except.error _ =>
          (pre ++ markFailed filmID "failed to generate master playlist", false)
      | Except.ok _ =>
        if env.masterUploadOk = false then
          (pre ++ Event.upload (masterKey filmID) ::
             markFailed filmID "failed to upload master playlist", false)
        else if env.updateFilmOk = false then
          (pre ++ Event.upload (masterKey filmID) ::
             markFailed filmID "failed to update film", false)
        else
          (pre ++
             [ Event.upload (masterKey filmID),
               Event.filmHLS (getHLSMasterURL publicURL filmID)
                 (getThumbnailURL publicURL filmID),
               Event.jobUpdate filmID FilmStatus.READY 100 "",
               Event.redisStatus FilmStatus.READY ], true)

/-- `Processor.ProcessJob`.  The first action is the
`UpdateTranscodeJobStatus` call with TRANSCODING/progress 10 — issued with
the film id as the id argument; if that call errors the function returns at
once, having performed nothing else.  `qualities` stands for the package
variable `ffmpeg.Qualities`. -/
def processJob (env : Env) (qualities : List QualityLevel)
    (filmID publicURL : String) : List Event × Bool :=
  if env.updateJobOk = false then ([], false)
  else
    let body := processJobBody env qualities filmID publicURL
    (Event.jobUpdate filmID FilmStatus.TRANSCODING 10 "" :: body.1, body.2)

/-! `FilmHandler.ConfirmUpload` (`handlers_films.go`). -/

/-- Outcomes of the calls made by `ConfirmUpload`. -/
structure ConfirmEnv where
  filmFound : Bool
  ownerMatches : Bool
  createJobOk : Bool
  enqueueOk : Bool
deriving DecidableEq, Repr

/-- What one `ConfirmUpload` request leaves behind: the HTTP status of the
response, whether the `transcode_jobs` row was inserted, whether the film id
was enqueued, and the film's status afterwards. -/
structure ConfirmResult where
  httpStatus : Nat
  jobCreated : Bool
  enqueued : Bool
  filmStatusAfter : FilmStatus
deriving DecidableEq, Repr

/-- `FilmHandler.ConfirmUpload`: look the film up, check ownership, insert the
job row, enqueue, then set the film's status to TRANSCODING.  Each failing
step responds with an error and returns, undoing nothing. -/
def confirmUpload (env : ConfirmEnv) (filmStatus0 : FilmStatus) : ConfirmResult :=
  if env.filmFound = false then
    { httpStatus := 404, jobCreated := false, enqueued := false
      filmStatusAfter := filmStatus0 }
  else if env.ownerMatches = false then
    { httpStatus := 403, jobCreated := false, enqueued := false
      filmStatusAfter := filmStatus0 }
  else if env.createJobOk = false then
    { httpStatus := 500, jobCreated := false, enqueued := false
      filmStatusAfter := filmStatus0 }
  else if env.enqueueOk = false then
    { httpStatus := 500, jobCreated := true, enqueued := false
      filmStatusAfter := filmStatus0 }
  else
    { httpStatus := 200, jobCreated := true, enqueued := true
      filmStatusAfter := FilmStatus.TRANSCODING }

end Filmtube

namespace Filmtube

set_option maxRecDepth 40000

/-! Helper lemmas about `progressUpdates`. -/

/-- An issued job update contributes its progress argument. -/
theorem progressUpdates_jobUpdate (id : String) (s : FilmStatus) (p : Nat)
    (err : String) (l : List Event) :
    progressUpdates (Event.jobUpdate id s p err :: l)
      = p :: progressUpdates l :=
  rfl

/-- An ffmpeg transcode invocation contributes no progress value. -/
theorem progressUpdates_ffmpegTranscode (q : String) (l : List Event) :
    progressUpdates (Event.ffmpegTranscode q :: l) = progressUpdates l :=
  rfl

/-- An object upload contributes no progress value. -/
theorem progressUpdates_upload (k : String) (l : List Event) :
    progressUpdates (Event.upload k :: l) = progressUpdates l :=
  rfl

/-- `progressUpdates` distributes over concatenation of traces. -/
theorem progressUpdates_append (l l' : List Event) :
    progressUpdates (l ++ l') = progressUpdates l ++ progressUpdates l' :=
  List.filterMap_append l l' _

/-- Claim C6 (counterexample): contrary to the claim, `GenerateMasterPlaylist`
applied to an empty tier list does not return an error; it succeeds with
header-only playlist bytes. -/
theorem generateMasterPlaylist_empty_returns_ok :
    generateMasterPlaylist "f" [] = Except.ok "#EXTM3U\n#EXT-X-VERSION:3\n" ∧
    (generateMasterPlaylist "f" []).isOk = true :=
  ⟨rfl, rfl⟩

/-- Claim C6 (amended): for every film id, `GenerateMasterPlaylist` applied to
an empty tier list succeeds, returning exactly the two header lines and no
stream entries; the zero-tier configuration is not rejected at
manifest-build time. -/
theorem generateMasterPlaylist_empty_header_only (filmID : String) :
    generateMasterPlaylist filmID []
      = Except.ok ("#EXTM3U\n" ++ "#EXT-X-VERSION:3\n") :=
  rfl

/-- The ids of a concatenation of traces. -/
theorem jobUpdateIds_append (l l' : List Event) :
    jobUpdateIds (l ++ l') = jobUpdateIds l ++ jobUpdateIds l' :=
  List.filterMap_append l l' _

/-- `markFailed` issues exactly one job update and passes the film id. -/
theorem jobUpdateIds_markFailed (filmID errorMsg : String) :
    jobUpdateIds (markFailed filmID errorMsg) = [filmID] :=
  rfl

/-- If no job update of a trace passes the row's primary key, replaying the
trace leaves the row untouched: every `UPDATE transcode_jobs` matches zero
rows. -/
theorem applyJobEvents_no_match (jobPK : String) (now : Nat) :
    ∀ (evs : List Event) (row : JobRow),
      (∀ id ∈ jobUpdateIds evs, id ≠ jobPK) →
      applyJobEvents jobPK row now evs = row := by
  intro evs
  induction evs with
  | nil =>
    intro row _
    rfl
  | cons e rest ih =>
    intro row h
    cases e
    case jobUpdate id s p err =>
      have hid : id ≠ jobPK := h id (List.mem_cons_self _ _)
      have hrow : applyJobEvent jobPK now row (Event.jobUpdate id s p err)
          = row := by
        simp [applyJobEvent, hid]
      show applyJobEvents jobPK
        (applyJobEvent jobPK now row (Event.jobUpdate id s p err)) now rest
          = row
      rw [hrow]
      exact ih row (fun i hi => h i (List.mem_cons_of_mem _ hi))
    all_goals exact ih row h

/-- Every job update the tier loop issues passes the film id as the
`UpdateTranscodeJobStatus` id argument, whatever the environment. -/
theorem jobUpdateIds_transcodeLoop (env : Env) (filmID : String) (n : Nat) :
    ∀ (qs : List QualityLevel) (i : Nat) (completed : List String),
      ∀ id ∈ jobUpdateIds (transcodeLoop env filmID n qs i completed).1,
        id = filmID := by
  intro qs
  induction qs with
  | nil =>
    intro i completed id hid
    simp [transcodeLoop, jobUpdateIds] at hid
  | cons q rest ih =>
    intro i completed id hid
    rw [transcodeLoop] at hid
    split at hid
    · simp [jobUpdateIds, markFailed] at hid
      exact hid
    · split at hid
      · simp [jobUpdateIds, markFailed] at hid
        exact hid
      · simp only [jobUpdateIds_append, List.mem_append] at hid
        rcases hid with hid | hid
        · simp [jobUpdateIds] at hid
          exact hid
        · exact ih (i + 1) (completed ++ [q.name]) id hid

/-- The empty trace passes no ids. -/
theorem jobUpdateIds_nil : jobUpdateIds [] = [] := rfl

/-- A job update passes its id argument. -/
theorem jobUpdateIds_jobUpdate (id : String) (s : FilmStatus) (p : Nat)
    (err : String) (l : List Event) :
    jobUpdateIds (Event.jobUpdate id s p err :: l) = id :: jobUpdateIds l := rfl

/-- A download passes no id. -/
theorem jobUpdateIds_download (k : String) (l : List Event) :
    jobUpdateIds (Event.download k :: l) = jobUpdateIds l := rfl

/-- An upload passes no id. -/
theorem jobUpdateIds_upload (k : String) (l : List Event) :
    jobUpdateIds (Event.upload k :: l) = jobUpdateIds l := rfl

/-- An ffmpeg probe passes no id. -/
theorem jobUpdateIds_ffmpegProbe (l : List Event) :
    jobUpdateIds (Event.ffmpegProbe :: l) = jobUpdateIds l := rfl

/-- An ffmpeg thumbnail extraction passes no id. -/
theorem jobUpdateIds_ffmpegThumbnail (l : List Event) :
    jobUpdateIds (Event.ffmpegThumbnail :: l) = jobUpdateIds l := rfl

/-- An ffmpeg transcode passes no id. -/
theorem jobUpdateIds_ffmpegTranscode (q : String) (l : List Event) :
    jobUpdateIds (Event.ffmpegTranscode q :: l) = jobUpdateIds l := rfl

/-- An `UpdateFilmHLS` write passes no id. -/
theorem jobUpdateIds_filmHLS (m t : String) (l : List Event) :
    jobUpdateIds (Event.filmHLS m t :: l) = jobUpdateIds l := rfl

/-- A film status write passes no id. -/
theorem jobUpdateIds_filmStatus (s : FilmStatus) (l : List Event) :
    jobUpdateIds (Event.filmStatus s :: l) = jobUpdateIds l := rfl

/-- A Redis cache write passes no id. -/
theorem jobUpdateIds_redisStatus (s : FilmStatus) (l : List Event) :
    jobUpdateIds (Event.redisStatus s :: l) = jobUpdateIds l := rfl

/-- Every job update `processJobBody` issues passes the film id as the
`UpdateTranscodeJobStatus` id argument, whatever the environment. -/
theorem jobUpdateIds_processJobBody (env : Env) (qualities : List QualityLevel)
    (filmID publicURL : String) :
    ∀ id ∈ jobUpdateIds (processJobBody env qualities filmID publicURL).1,
      id = filmID := by
  intro id hid
  have hloop := jobUpdateIds_transcodeLoop env filmID
    qualities.length qualities 0 []
  rw [processJobBody] at hid
  split at hid
  · simp only [jobUpdateIds_download, jobUpdateIds_markFailed,
      List.mem_singleton] at hid
    exact hid
  · split at hid
    · simp only [jobUpdateIds_download, jobUpdateIds_ffmpegProbe,
        jobUpdateIds_markFailed, List.mem_singleton] at hid
      exact hid
    · simp only [] at hid
      split at hid
      · simp only [jobUpdateIds_download, jobUpdateIds_ffmpegProbe,
          jobUpdateIds_jobUpdate, jobUpdateIds_append, jobUpdateIds_nil,
          jobUpdateIds_ffmpegThumbnail, jobUpdateIds_upload, apply_ite
            (f := jobUpdateIds), ite_self, List.nil_append, List.mem_cons,
          List.mem_append] at hid
        rcases hid with hid | hid
        · exact hid
        · exact hloop id hid
      · simp only [generateMasterPlaylist] at hid
        split at hid
        · simp only [jobUpdateIds_append, jobUpdateIds_download,
            jobUpdateIds_ffmpegProbe, jobUpdateIds_jobUpdate,
            jobUpdateIds_nil, jobUpdateIds_ffmpegThumbnail,
            jobUpdateIds_upload, jobUpdateIds_markFailed, apply_ite
              (f := jobUpdateIds), ite_self, List.nil_append, List.mem_cons,
            List.mem_append, List.mem_singleton, List.mem_nil_iff,
            or_false] at hid
          rcases hid with (hid | hid) | hid
          · exact hid
          · exact hloop id hid
          · exact hid
        · split at hid
          · simp only [jobUpdateIds_append, jobUpdateIds_download,
              jobUpdateIds_ffmpegProbe, jobUpdateIds_jobUpdate,
              jobUpdateIds_nil, jobUpdateIds_ffmpegThumbnail,
              jobUpdateIds_upload, jobUpdateIds_markFailed, apply_ite
                (f := jobUpdateIds), ite_self, List.nil_append, List.mem_cons,
              List.mem_append, List.mem_singleton, List.mem_nil_iff,
              or_false] at hid
            rcases hid with (hid | hid) | hid
            · exact hid
            · exact hloop id hid
            · exact hid
          · simp only [jobUpdateIds_append, jobUpdateIds_download,
              jobUpdateIds_ffmpegProbe, jobUpdateIds_jobUpdate,
              jobUpdateIds_nil, jobUpdateIds_ffmpegThumbnail,
              jobUpdateIds_upload, jobUpdateIds_filmHLS,
              jobUpdateIds_redisStatus, apply_ite (f := jobUpdateIds),
              ite_self, List.nil_append, List.mem_cons, List.mem_append,
              List.mem_singleton, List.mem_nil_iff, or_false] at hid
            rcases hid with (hid | hid) | hid
            · exact hid
            · exact hloop id hid
            · exact hid

/-- Every job update `ProcessJob` issues passes the film id as the
`UpdateTranscodeJobStatus` id argument, whatever the environment. -/
theorem jobUpdateIds_processJob (env : Env) (qualities : List QualityLevel)
    (filmID publicURL : String) :
    ∀ id ∈ jobUpdateIds (processJob env qualities filmID publicURL).1,
      id = filmID := by
  intro id hid
  rw [processJob] at hid
  split at hid
  · simp [jobUpdateIds_nil] at hid
  · simp only [] at hid
    rw [jobUpdateIds_jobUpdate] at hid
    rcases List.mem_cons.mp hid with h | h
    · exact h
    · exact jobUpdateIds_processJobBody env qualities filmID publicURL id h

/-- Whenever the job row's primary key differs from the film id — as it
always does, `ConfirmUpload` choosing a fresh `uuid.New()` for the row —
replaying any `ProcessJob` trace leaves the `transcode_jobs` row untouched:
every one of the worker's UPDATEs matches zero rows. -/
theorem applyJobEvents_processJob_ne
    (env : Env) (qualities : List QualityLevel) (filmID publicURL : String)
    (jobPK : String) (row : JobRow) (now : Nat) (h : jobPK ≠ filmID) :
    applyJobEvents jobPK row now
        (processJob env qualities filmID publicURL).1 = row := by
  have hall : ∀ id ∈ jobUpdateIds (processJob env qualities filmID publicURL).1,
      id ≠ jobPK := by
    intro id hid
    rw [jobUpdateIds_processJob env qualities filmID publicURL id hid]
    exact fun hc => h hc.symm
  exact applyJobEvents_no_match jobPK now
    (processJob env qualities filmID publicURL).1 row hall

/-- Claim C7 (evaluation at the failing input): the TRANSCODING/progress-10
update is indeed the first action of the run and precedes every download,
ffmpeg invocation and upload — but it passes the film id "f" where
`UpdateTranscodeJobStatus`'s `WHERE id = $6` expects the job row's primary
key "j", so it matches zero rows: the job row is still UPLOADED with
progress 0 after that first call, and still after the whole run, while the
external I/O proceeds. -/
theorem processJob_transcoding_persist_misses_job_row :
    (processJob envAllOk Qualities "f" "p").1.head?
        = some (Event.jobUpdate "f" FilmStatus.TRANSCODING 10 "") ∧
    applyJobEvents "j"
        { status := FilmStatus.UPLOADED, progress := 0, error := ""
          startedAt := none, completedAt := none } 5
        ((processJob envAllOk Qualities "f" "p").1.take 1)
      = { status := FilmStatus.UPLOADED, progress := 0, error := ""
          startedAt := none, completedAt := none } ∧
    applyJobEvents "j"
        { status := FilmStatus.UPLOADED, progress := 0, error := ""
          startedAt := none, completedAt := none } 5
        (processJob envAllOk Qualities "f" "p").1
      = { status := FilmStatus.UPLOADED, progress := 0, error := ""
          startedAt := none, completedAt := none } ∧
    (processJob envAllOk Qualities "f" "p").1.contains
        (Event.download (originalVideoKey "f")) = true ∧
    (processJob envAllOk Qualities "f" "p").1.contains
        (Event.upload (masterKey "f")) = true :=
  ⟨rfl, rfl, rfl, rfl, rfl⟩

/-- Claim C9: when the film exists, the caller owns it, the job-row insert
succeeds and the queue enqueue fails, `ConfirmUpload` responds with an error
(HTTP 500) while the freshly inserted `transcode_jobs` row remains and the
film's status is unchanged — a job row with no queue entry. -/
theorem confirmUpload_enqueue_failure_leaves_job_row
    (env : ConfirmEnv) (s0 : FilmStatus)
    (h1 : env.filmFound = true) (h2 : env.ownerMatches = true)
    (h3 : env.createJobOk = true) (h4 : env.enqueueOk = false) :
    confirmUpload env s0
      = { httpStatus := 500, jobCreated := true, enqueued := false
          filmStatusAfter := s0 } := by
  simp [confirmUpload, h1, h2, h3, h4]

/-- Witness for claim C9 at a concrete environment and film status. -/
theorem confirmUpload_enqueue_failure_leaves_job_row_witness :
    confirmUpload
        { filmFound := true, ownerMatches := true
          createJobOk := true, enqueueOk := false } FilmStatus.UPLOADED
      = { httpStatus := 500, jobCreated := true, enqueued := false
          filmStatusAfter := FilmStatus.UPLOADED } :=
  confirmUpload_enqueue_failure_leaves_job_row _ _ rfl rfl rfl rfl

/-- Claim C10: `UpdateTranscodeJobStatus` writes `started_at` only on an
update to TRANSCODING and only when `started_at` is NULL, so a set
`started_at` is never changed; `completed_at` is written exactly by updates
to READY or FAILED and is otherwise unchanged. -/
theorem updateTranscodeJobStatus_timestamp_frame
    (row : JobRow) (status : FilmStatus) (progress : Nat) (errorMsg : String)
    (now : Nat) :
    (∀ t, row.startedAt = some t →
      (updateTranscodeJobStatus row status progress errorMsg now).startedAt
        = some t) ∧
    (status ≠ FilmStatus.TRANSCODING →
      (updateTranscodeJobStatus row status progress errorMsg now).startedAt
        = row.startedAt) ∧
    (status = FilmStatus.TRANSCODING → row.startedAt = none →
      (updateTranscodeJobStatus row status progress errorMsg now).startedAt
        = some now) ∧
    ((status = FilmStatus.READY ∨ status = FilmStatus.FAILED) →
      (updateTranscodeJobStatus row status progress errorMsg now).completedAt
        = some now) ∧
    (status ≠ FilmStatus.READY → status ≠ FilmStatus.FAILED →
      (updateTranscodeJobStatus row status progress errorMsg now).completedAt
        = row.completedAt) := by
  refine ⟨?_, ?_, ?_, ?_, ?_⟩
  · intro t ht
    simp [updateTranscodeJobStatus, ht]
  · intro h
    simp [updateTranscodeJobStatus, h]
  · intro h h'
    simp [updateTranscodeJobStatus, h, h']
  · intro h
    simp [updateTranscodeJobStatus, h]
  · intro h h'
    simp [updateTranscodeJobStatus, h, h']

/-- Witness for claim C10 at two concrete updates: a terminal READY update on
a row whose `started_at` is already set, and a first TRANSCODING update on a
fresh row. -/
theorem updateTranscodeJobStatus_timestamp_frame_witness :
    (updateTranscodeJobStatus
        { status := FilmStatus.TRANSCODING, progress := 50, error := ""
          startedAt := some 3, completedAt := none }
        FilmStatus.READY 100 "" 7).startedAt = some 3 ∧
    (updateTranscodeJobStatus
        { status := FilmStatus.TRANSCODING, progress := 50, error := ""
          startedAt := some 3, completedAt := none }
        FilmStatus.READY 100 "" 7).completedAt = some 7 ∧
    (updateTranscodeJobStatus
        { status := FilmStatus.UPLOADED, progress := 0, error := ""
          startedAt := none, completedAt := none }
        FilmStatus.TRANSCODING 10 "" 4).startedAt = some 4 ∧
    (updateTranscodeJobStatus
        { status := FilmStatus.UPLOADED, progress := 0, error := ""
          startedAt := none, completedAt := none }
        FilmStatus.TRANSCODING 10 "" 4).completedAt = none :=
  ⟨(updateTranscodeJobStatus_timestamp_frame
      { status := FilmStatus.TRANSCODING, progress := 50, error := ""
        startedAt := some 3, completedAt := none }
      FilmStatus.READY 100 "" 7).1 3 rfl,
   (updateTranscodeJobStatus_timestamp_frame
      { status := FilmStatus.TRANSCODING, progress := 50, error := ""
        startedAt := some 3, completedAt := none }
      FilmStatus.READY 100 "" 7).2.2.2.1 (Or.inl rfl),
   (updateTranscodeJobStatus_timestamp_frame
      { status := FilmStatus.UPLOADED, progress := 0, error := ""
        startedAt := none, completedAt := none }
      FilmStatus.TRANSCODING 10 "" 4).2.2.1 rfl rfl,
   (updateTranscodeJobStatus_timestamp_frame
      { status := FilmStatus.UPLOADED, progress := 0, error := ""
        startedAt := none, completedAt := none }
      FilmStatus.TRANSCODING 10 "" 4).2.2.2.2 (by decide) (by decide)⟩

/-- Claim C1 (evaluation at the failing input): redelivering a job whose row
is terminal (READY, progress 100, primary key "j") is not idempotent — the
run re-downloads the source and re-uploads every object (both index
playlists and the master playlist).  The first action does attempt to
rewrite the job to TRANSCODING/10, but it passes the film id "f" where
`WHERE id = $6` expects the job primary key "j", so the terminal row
survives only because that UPDATE — like every job update of the run —
matches zero rows. -/
theorem processJob_redelivery_reuploads_objects :
    (processJob envAllOk Qualities "f" "p").1.head?
        = some (Event.jobUpdate "f" FilmStatus.TRANSCODING 10 "") ∧
    applyJobEvents "j"
        { status := FilmStatus.READY, progress := 100, error := ""
          startedAt := some 1, completedAt := some 2 } 9
        (processJob envAllOk Qualities "f" "p").1
      = { status := FilmStatus.READY, progress := 100, error := ""
          startedAt := some 1, completedAt := some 2 } ∧
    (processJob envAllOk Qualities "f" "p").1.contains
        (Event.download (originalVideoKey "f")) = true ∧
    (processJob envAllOk Qualities "f" "p").1.contains
        (Event.upload (masterKey "f")) = true ∧
    (processJob envAllOk Qualities "f" "p").1.contains
        (Event.upload (hlsFileKey "f" "360p" "index.m3u8")) = true ∧
    (processJob envAllOk Qualities "f" "p").1.contains
        (Event.upload (hlsFileKey "f" "720p" "index.m3u8")) = true :=
  ⟨rfl, rfl, rfl, rfl, rfl, rfl⟩

/-- Claim C2 (evaluation at the failing input): a fully successful two-tier
run does end READY with progress 100 and builds the manifest with both tiers
in declared order, but it persists zero `video_assets` rows —
`CreateVideoAsset` is never invoked, so no `createVideoAsset` event occurs in
the trace. -/
theorem processJob_success_persists_no_rendition_rows :
    (processJob envAllOk Qualities "f" "p").2 = true ∧
    (processJob envAllOk Qualities "f" "p").1.contains
        (Event.jobUpdate "f" FilmStatus.READY 100 "") = true ∧
    (progressUpdates (processJob envAllOk Qualities "f" "p").1).getLast?
        = some 100 ∧
    (processJob envAllOk Qualities "f" "p").1.filter isCreateVideoAsset
        = [] ∧
    manifestURIs (playlistOrEmpty (generateMasterPlaylist "f"
        (Qualities.map QualityLevel.name)))
      = ["360p/360p/index.m3u8", "720p/720p/index.m3u8"] :=
  ⟨rfl, rfl, rfl, rfl, rfl⟩

/-- Claim C3 (evaluation at the failing input): the rendition URI the master
manifest writes for tier 360p, resolved against the master playlist's key
`hls/f/master.m3u8`, is `hls/f/360p/360p/index.m3u8` — it repeats the quality
segment — while `UploadHLSFile` stores the tier's index playlist at
`hls/f/360p/index.m3u8`; the two keys differ. -/
theorem masterManifest_uri_mismatches_upload_key :
    manifestURIs (playlistOrEmpty (generateMasterPlaylist "f" ["360p", "720p"]))
      = ["360p/360p/index.m3u8", "720p/720p/index.m3u8"] ∧
    resolveRelative (masterKey "f") "360p/360p/index.m3u8"
      = "hls/f/360p/360p/index.m3u8" ∧
    hlsFileKey "f" "360p" "index.m3u8" = "hls/f/360p/index.m3u8" ∧
    resolveRelative (masterKey "f") "360p/360p/index.m3u8"
      ≠ hlsFileKey "f" "360p" "index.m3u8" ∧
    resolveRelative (masterKey "f") "720p/720p/index.m3u8"
      ≠ hlsFileKey "f" "720p" "index.m3u8" :=
  ⟨rfl, rfl, rfl, by decide, by decide⟩

/-- Claim C4 (evaluation at the failing input): when thumbnail generation
fails but both tiers succeed, the job does end READY with the manifest
uploaded and no thumbnail object stored — yet the film row is persisted with
a non-null thumbnail URL (the derived public URL of the never-uploaded
poster), not with `thumbnailURL == null`. -/
theorem thumbnail_failure_still_records_thumbnail_url :
    (processJob envThumbFails Qualities "f" "https://pub").2 = true ∧
    (processJob envThumbFails Qualities "f" "https://pub").1.contains
        (Event.upload (masterKey "f")) = true ∧
    (processJob envThumbFails Qualities "f" "https://pub").1.contains
        (Event.upload (thumbnailKey "f")) = false ∧
    (progressUpdates
        (processJob envThumbFails Qualities "f" "https://pub").1).getLast?
      = some 100 ∧
    applyFilmEvents
        { status := FilmStatus.TRANSCODING
          hlsMasterURL := none, thumbnailURL := none }
        (processJob envThumbFails Qualities "f" "https://pub").1
      = { status := FilmStatus.READY
          hlsMasterURL := some "https://pub/hls/f/master.m3u8"
          thumbnailURL := some "https://pub/thumb/f/poster.jpg" } ∧
    (applyFilmEvents
        { status := FilmStatus.TRANSCODING
          hlsMasterURL := none, thumbnailURL := none }
        (processJob envThumbFails Qualities "f" "https://pub").1).thumbnailURL
      ≠ none :=
  ⟨rfl, rfl, rfl, rfl, rfl, by decide⟩

/-- Claim C5: within one job attempt the persisted progress is (vacuously)
non-decreasing, because no worker job update is ever persisted: every
`UpdateTranscodeJobStatus` call — the FAILED/progress-0 one of `markFailed`
included — passes the film id where `WHERE id = $6` expects the job row's
distinct primary key, so each UPDATE matches zero rows and the row (its
progress in particular) never changes across the whole run, in every
environment. -/
theorem processJob_persisted_progress_vacuously_monotone
    (env : Env) (qualities : List QualityLevel) (filmID publicURL : String)
    (jobPK : String) (row : JobRow) (now : Nat) (h : jobPK ≠ filmID) :
    applyJobEvents jobPK row now
        (processJob env qualities filmID publicURL).1 = row ∧
    (applyJobEvents jobPK row now
        (processJob env qualities filmID publicURL).1).progress
      = row.progress := by
  have hrow := applyJobEvents_processJob_ne env qualities filmID publicURL
    jobPK row now h
  exact ⟨hrow, by rw [hrow]⟩

/-- Witness for claim C5 on the `markFailed` path: the download fails, the
worker issues the progress-10 and then the FAILED/progress-0 updates, and
the job row (primary key "j", film id "f") is unchanged — its progress
constant. -/
theorem processJob_persisted_progress_vacuously_monotone_witness :
    progressUpdates (processJob envDownloadFails Qualities "f" "p").1
        = [10, 0] ∧
    applyJobEvents "j"
        { status := FilmStatus.UPLOADED, progress := 0, error := ""
          startedAt := none, completedAt := none } 5
        (processJob envDownloadFails Qualities "f" "p").1
      = { status := FilmStatus.UPLOADED, progress := 0, error := ""
          startedAt := none, completedAt := none } ∧
    (applyJobEvents "j"
        { status := FilmStatus.UPLOADED, progress := 0, error := ""
          startedAt := none, completedAt := none } 5
        (processJob envDownloadFails Qualities "f" "p").1).progress = 0 :=
  ⟨rfl,
   (processJob_persisted_progress_vacuously_monotone envDownloadFails
      Qualities "f" "p" "j"
      { status := FilmStatus.UPLOADED, progress := 0, error := ""
        startedAt := none, completedAt := none } 5 (by decide)).1,
   (processJob_persisted_progress_vacuously_monotone envDownloadFails
      Qualities "f" "p" "j"
      { status := FilmStatus.UPLOADED, progress := 0, error := ""
        startedAt := none, completedAt := none } 5 (by decide)).2⟩

/-- The empty trace yields no progress values. -/
theorem progressUpdates_nil : progressUpdates [] = [] := rfl

/-- A download contributes no progress value. -/
theorem progressUpdates_download (k : String) (l : List Event) :
    progressUpdates (Event.download k :: l) = progressUpdates l := rfl

/-- An ffmpeg probe contributes no progress value. -/
theorem progressUpdates_ffmpegProbe (l : List Event) :
    progressUpdates (Event.ffmpegProbe :: l) = progressUpdates l := rfl

/-- An ffmpeg thumbnail extraction contributes no progress value. -/
theorem progressUpdates_ffmpegThumbnail (l : List Event) :
    progressUpdates (Event.ffmpegThumbnail :: l) = progressUpdates l := rfl

/-- An `UpdateFilmHLS` write contributes no progress value. -/
theorem progressUpdates_filmHLS (m t : String) (l : List Event) :
    progressUpdates (Event.filmHLS m t :: l) = progressUpdates l := rfl

/-- A Redis cache write contributes no progress value. -/
theorem progressUpdates_redisStatus (s : FilmStatus) (l : List Event) :
    progressUpdates (Event.redisStatus s :: l) = progressUpdates l := rfl

/-- When every external call succeeds, the tier loop starting at index `i`
persists exactly one progress value per tier, `20 + k * (60 / n)` for
`k = i+1, …, i+qs.length`, appends every tier name to `completedQualities` in
order, and reports no error. -/
theorem transcodeLoop_allOk_spec (filmID : String) (n : Nat) :
    ∀ (qs : List QualityLevel) (i : Nat) (completed : List String),
      progressUpdates (transcodeLoop envAllOk filmID n qs i completed).1
          = (List.range' (i + 1) qs.length).map (fun k => 20 + k * (60 / n))
        ∧ (transcodeLoop envAllOk filmID n qs i completed).2.1
          = completed ++ qs.map QualityLevel.name
        ∧ (transcodeLoop envAllOk filmID n qs i completed).2.2 = none := by
  intro qs
  induction qs with
  | nil =>
    intro i completed
    exact ⟨rfl, by simp [transcodeLoop], rfl⟩
  | cons q rest ih =>
    intro i completed
    obtain ⟨h1, h2, h3⟩ := ih (i + 1) (completed ++ [q.name])
    have hstep : transcodeLoop envAllOk filmID n (q :: rest) i completed
        = ([Event.ffmpegTranscode q.name,
            Event.upload (hlsFileKey filmID q.name "index.m3u8"),
            Event.jobUpdate filmID FilmStatus.TRANSCODING
              (20 + (i + 1) * (60 / n)) ""]
            ++ (transcodeLoop envAllOk filmID n rest (i + 1)
                  (completed ++ [q.name])).1,
           (transcodeLoop envAllOk filmID n rest (i + 1)
              (completed ++ [q.name])).2.1,
           (transcodeLoop envAllOk filmID n rest (i + 1)
              (completed ++ [q.name])).2.2) := rfl
    rw [hstep]
    refine ⟨?_, ?_, h3⟩
    · rw [show ([Event.ffmpegTranscode q.name,
            Event.upload (hlsFileKey filmID q.name "index.m3u8"),
            Event.jobUpdate filmID FilmStatus.TRANSCODING
              (20 + (i + 1) * (60 / n)) ""]
              : List Event)
            = [Event.ffmpegTranscode q.name]
              ++ [Event.upload (hlsFileKey filmID q.name "index.m3u8")]
              ++ [Event.jobUpdate filmID FilmStatus.TRANSCODING
                    (20 + (i + 1) * (60 / n)) ""] from rfl]
      simp only [progressUpdates_append, progressUpdates_ffmpegTranscode,
        progressUpdates_upload, progressUpdates_jobUpdate, progressUpdates_nil,
        h1, List.length_cons, List.range'_succ, List.map_cons, List.nil_append,
        List.cons_append, List.append_nil]
    · simp [h2]

/-- Claim C8 (amended): in a fully successful run the worker issues job
updates whose progress arguments are 10, 20, then `20 + k * (60 / tierCount)`
for `k = 1, …, tierCount` (`k` is tierIndex + 1, with integer division), then
100; the value issued after the last tier, `20 + tierCount * (60 /
tierCount)`, equals 80 whenever `tierCount` divides 60 — for the configured
two tiers in particular — but not for every non-empty tier configuration.
None of these values is persisted: each call passes the film id where
`WHERE id = $6` expects the job row's distinct primary key, so the job row's
progress never changes. -/
theorem processJob_progress_schedule (qs : List QualityLevel)
    (filmID publicURL jobPK : String) (row : JobRow) (now : Nat)
    (h : jobPK ≠ filmID) :
    progressUpdates (processJob envAllOk qs filmID publicURL).1
        = 10 :: 20 :: ((List.range' 1 qs.length).map
            (fun k => 20 + k * (60 / qs.length)) ++ [100])
      ∧ (60 % qs.length = 0 →
          20 + qs.length * (60 / qs.length) = 80)
      ∧ applyJobEvents jobPK row now
          (processJob envAllOk qs filmID publicURL).1 = row := by
  refine ⟨?_, ?_, ?_⟩
  · obtain ⟨h1, h2, h3⟩ := transcodeLoop_allOk_spec filmID qs.length qs 0 []
    rcases htriple : transcodeLoop envAllOk filmID qs.length qs 0 []
      with ⟨evs, comp, err⟩
    rw [htriple] at h1 h3
    simp only at h1 h3
    subst h3
    have hbody : (processJobBody envAllOk qs filmID publicURL).1
        = Event.download (originalVideoKey filmID) :: Event.ffmpegProbe ::
          Event.jobUpdate filmID FilmStatus.TRANSCODING 20 "" ::
          (([Event.ffmpegThumbnail, Event.upload (thumbnailKey filmID)]
            ++ evs)
           ++ [Event.upload (masterKey filmID),
               Event.filmHLS (getHLSMasterURL publicURL filmID)
                 (getThumbnailURL publicURL filmID),
               Event.jobUpdate filmID FilmStatus.READY 100 "",
               Event.redisStatus FilmStatus.READY]) := by
      unfold processJobBody
      rw [htriple]
      rfl
    have hpj : (processJob envAllOk qs filmID publicURL).1
        = Event.jobUpdate filmID FilmStatus.TRANSCODING 10 ""
            :: (processJobBody envAllOk qs filmID publicURL).1 := rfl
    rw [hpj, hbody]
    rw [show ([Event.ffmpegThumbnail, Event.upload (thumbnailKey filmID)]
          : List Event)
          = [Event.ffmpegThumbnail] ++ [Event.upload (thumbnailKey filmID)]
          from rfl]
    simp only [progressUpdates_jobUpdate, progressUpdates_download,
      progressUpdates_ffmpegProbe, progressUpdates_append,
      progressUpdates_ffmpegThumbnail, progressUpdates_upload,
      progressUpdates_filmHLS, progressUpdates_redisStatus, progressUpdates_nil,
      h1, List.nil_append, List.cons_append, List.append_nil, List.append_assoc]
  · intro hmod
    have hdvd : qs.length ∣ 60 := Nat.dvd_of_mod_eq_zero hmod
    have hc := Nat.mul_div_cancel' hdvd
    omega
  · exact applyJobEvents_processJob_ne envAllOk qs filmID publicURL
      jobPK row now h

/-- Witness for claim C8 at the configured two-tier list: the issued progress
values are as scheduled, the after-last-tier value is 80, and the job row
(primary key "j", film id "f") is unchanged. -/
theorem processJob_progress_schedule_witness :
    progressUpdates (processJob envAllOk Qualities "f" "p").1
        = 10 :: 20 :: ((List.range' 1 Qualities.length).map
            (fun k => 20 + k * (60 / Qualities.length)) ++ [100])
      ∧ 20 + Qualities.length * (60 / Qualities.length) = 80
      ∧ applyJobEvents "j"
          { status := FilmStatus.UPLOADED, progress := 0, error := ""
            startedAt := none, completedAt := none } 5
          (processJob envAllOk Qualities "f" "p").1
        = { status := FilmStatus.UPLOADED, progress := 0, error := ""
            startedAt := none, completedAt := none } :=
  ⟨(processJob_progress_schedule Qualities "f" "p" "j"
      { status := FilmStatus.UPLOADED, progress := 0, error := ""
        startedAt := none, completedAt := none } 5 (by decide)).1,
   (processJob_progress_schedule Qualities "f" "p" "j"
      { status := FilmStatus.UPLOADED, progress := 0, error := ""
        startedAt := none, completedAt := none } 5 (by decide)).2.1 (by decide),
   (processJob_progress_schedule Qualities "f" "p" "j"
      { status := FilmStatus.UPLOADED, progress := 0, error := ""
        startedAt := none, completedAt := none } 5 (by decide)).2.2⟩

/-- Claim C8 (counterexample): after a fully successful two-tier run the job
row's persisted progress is still 0, not the claimed `20 + (i+1) * (60 /
tierCount)` values — no update matched the row — and even among the issued
values the after-last-tier one is not always 80: with seven configured tiers
(integer division, 60 / 7 = 8) it is 76. -/
theorem progress_schedule_neither_persisted_nor_80 :
    progressUpdates (processJob envAllOk Qualities "f" "p").1
      = [10, 20, 50, 80, 100] ∧
    (applyJobEvents "j"
        { status := FilmStatus.UPLOADED, progress := 0, error := ""
          startedAt := none, completedAt := none } 5
        (processJob envAllOk Qualities "f" "p").1).progress = 0 ∧
    (0 : Nat) ≠ 20 + (0 + 1) * (60 / Qualities.length) ∧
    sevenTiers.length = 7 ∧
    progressUpdates (processJob envAllOk sevenTiers "f" "p").1
      = [10, 20, 28, 36, 44, 52, 60, 68, 76, 100] ∧
    20 + (6 + 1) * (60 / sevenTiers.length) = 76 ∧
    (76 : Nat) ≠ 80 :=
  ⟨rfl, rfl, by decide, rfl, rfl, rfl, by decide⟩

end Filmtube
